import Mathlib

/-!
Verification of the core state and persistence layer of the workday-widget
application (`src/workday_widget.py`), as a shallow embedding in Lean.

The embedding follows the Python source.  Persisted JSON dictionaries are
modelled as structures whose fields are the keys the code reads; Python's
insertion-ordered `dict` values keyed by strings are modelled as association
lists together with a `upsert` operation that mirrors `d[k] = v` (update in
place when the key exists, append otherwise).  Timestamps produced by
`datetime.now()` are inputs to the modelled operations (the code turns them
into strings immediately), so an operation that reads the clock takes the
reading as an explicit argument.
-/

namespace Workday

/-- `Task` dataclass (fields and defaults as in the source). `Task.to_dict`
is `asdict` and `Task.from_dict` is `Task(**data)`, so on well-formed task
dictionaries serialization is the identity; the model therefore uses `Task`
itself where the code passes task dictionaries around. -/
structure Task where
  id : String
  title : String
  created_at : String
  completed : Bool
  notes : String
deriving DecidableEq

/-- In-memory `WorkLog` dataclass: ordered mapping from team name to task
list, session notes, session start. -/
structure WorkLog where
  teams : List (String × List Task)
  session_notes : List (String × String)
  session_start : String
deriving DecidableEq

/-- The persisted work-log document, with the keys `WorkLog.from_dict`
reads: the new-format `teams` mapping, the three optional legacy
single-category keys (`Option` models `"team_a" in data`), session notes and
session start.  Absent `teams`/`session_notes`/`session_start` keys default
to empty in the code (`data.get(..., default)`), which the model renders as
the empty value. -/
structure WorkLogDoc where
  teams : List (String × List Task)
  team_a : Option (List Task)
  team_b : Option (List Task)
  sap_project : Option (List Task)
  session_notes : List (String × String)
  session_start : String
deriving DecidableEq

/-- Python `d[k] = v` on an insertion-ordered dict: replace the value in
place when `k` is present, otherwise append the new binding at the end. -/
def upsert (m : List (String × List Task)) (k : String) (v : List Task) :
    List (String × List Task) :=
  match m with
  | [] => [(k, v)]
  | (k', v') :: rest => if k' = k then (k', v) :: rest else (k', v') :: upsert rest k v

/-- Python `d.get(k)` on an insertion-ordered dict. -/
def lookupT : List (String × List Task) → String → Option (List Task)
  | [], _ => none
  | (k', v) :: rest, k => if k' = k then some v else lookupT rest k

/-- One legacy-key migration step of `WorkLog.from_dict`:
`if "<key>" in data: teams["<Name>"] = [...]`. -/
def applyLegacy (m : List (String × List Task)) (k : String) :
    Option (List Task) → List (String × List Task)
  | none => m
  | some v => upsert m k v

/-- The fallback seeded when no categories result from either source:
`{"Team A": [], "Team B": [], "SAP Project": []}`. -/
def defaultTeams : List (String × List Task) :=
  [("Team A", []), ("Team B", []), ("SAP Project", [])]

/-- `WorkLog.from_dict`: seed `teams` from the new-format mapping, then let
the three legacy keys overwrite same-named entries, then fall back to the
three defaults when the resulting mapping is empty (Python's truthiness test
`teams if teams else {...}`). -/
def WorkLog.from_dict (d : WorkLogDoc) : WorkLog :=
  let t1 := applyLegacy d.teams "Team A" d.team_a
  let t2 := applyLegacy t1 "Team B" d.team_b
  let t3 := applyLegacy t2 "SAP Project" d.sap_project
  { teams := if t3 = [] then defaultTeams else t3
    session_notes := d.session_notes
    session_start := d.session_start }

/-- `WorkLog.to_dict`: serializes the three current fields; legacy keys are
never written. -/
def WorkLog.to_dict (w : WorkLog) : WorkLogDoc :=
  { teams := w.teams
    team_a := none
    team_b := none
    sap_project := none
    session_notes := w.session_notes
    session_start := w.session_start }

theorem applyLegacy_some (m : List (String × List Task)) (k : String)
    (v : List Task) : applyLegacy m k (some v) = upsert m k v := rfl

theorem applyLegacy_none (m : List (String × List Task)) (k : String) :
    applyLegacy m k none = m := rfl

theorem lookupT_upsert_self (m : List (String × List Task)) (k : String)
    (v : List Task) : lookupT (upsert m k v) k = some v := by
  induction m with
  | nil => simp [upsert, lookupT]
  | cons p rest ih =>
    obtain ⟨k', v'⟩ := p
    by_cases h : k' = k
    · simp [upsert, lookupT, h]
    · simp [upsert, lookupT, h, ih]

theorem lookupT_upsert_other (m : List (String × List Task)) (k' k : String)
    (v : List Task) (h : k' ≠ k) : lookupT (upsert m k' v) k = lookupT m k := by
  induction m with
  | nil => simp [upsert, lookupT, h]
  | cons p rest ih =>
    obtain ⟨k₀, v₀⟩ := p
    by_cases h0 : k₀ = k'
    · subst h0
      simp [upsert, lookupT, h]
    · simp only [upsert, if_neg h0, lookupT]
      by_cases h1 : k₀ = k
      · simp [h1]
      · simp [h1, ih]

theorem upsert_ne_nil (m : List (String × List Task)) (k : String)
    (v : List Task) : upsert m k v ≠ [] := by
  cases m with
  | nil => simp [upsert]
  | cons p rest =>
    obtain ⟨k', v'⟩ := p
    by_cases h : k' = k <;> simp [upsert, h]

theorem applyLegacy_ne_nil (m : List (String × List Task)) (k : String)
    (o : Option (List Task)) (h : m ≠ []) : applyLegacy m k o ≠ [] := by
  cases o with
  | none => exact h
  | some v => exact upsert_ne_nil m k v

theorem lookupT_applyLegacy_other (m : List (String × List Task))
    (k' k : String) (o : Option (List Task)) (h : k' ≠ k) :
    lookupT (applyLegacy m k' o) k = lookupT m k := by
  cases o with
  | none => rfl
  | some v => exact lookupT_upsert_other m k' k v h

/-- Claim C1: in `WorkLog.from_dict`'s legacy migration, whenever the
document holds both a `teams` entry for one of the three fixed historical
names and the corresponding legacy single-category key, the loaded
category's task list is the one under the legacy key (legacy wins); and when
no categories result from either source, the loaded log holds exactly the
three fixed default categories with empty task lists. -/
theorem c1_migration_precedence (d : WorkLogDoc) :
    (∀ Y, d.team_a = some Y → (lookupT d.teams "Team A").isSome = true →
      lookupT (WorkLog.from_dict d).teams "Team A" = some Y)
    ∧ (∀ Y, d.team_b = some Y → (lookupT d.teams "Team B").isSome = true →
      lookupT (WorkLog.from_dict d).teams "Team B" = some Y)
    ∧ (∀ Y, d.sap_project = some Y → (lookupT d.teams "SAP Project").isSome = true →
      lookupT (WorkLog.from_dict d).teams "SAP Project" = some Y)
    ∧ (d.teams = [] → d.team_a = none → d.team_b = none → d.sap_project = none →
      (WorkLog.from_dict d).teams = defaultTeams) := by
  refine ⟨?_, ?_, ?_, ?_⟩
  · intro Y hA _
    simp only [WorkLog.from_dict, hA, applyLegacy_some]
    have h1 : upsert d.teams "Team A" Y ≠ [] := upsert_ne_nil _ _ _
    have h2 := applyLegacy_ne_nil _ "Team B" d.team_b h1
    have h3 := applyLegacy_ne_nil _ "SAP Project" d.sap_project h2
    rw [if_neg h3]
    rw [lookupT_applyLegacy_other _ _ _ _ (by decide)]
    rw [lookupT_applyLegacy_other _ _ _ _ (by decide)]
    exact lookupT_upsert_self _ _ _
  · intro Y hB _
    simp only [WorkLog.from_dict, hB, applyLegacy_some]
    have h2 : upsert (applyLegacy d.teams "Team A" d.team_a) "Team B" Y ≠ [] :=
      upsert_ne_nil _ _ _
    have h3 := applyLegacy_ne_nil _ "SAP Project" d.sap_project h2
    rw [if_neg h3]
    rw [lookupT_applyLegacy_other _ _ _ _ (by decide)]
    exact lookupT_upsert_self _ _ _
  · intro Y hS _
    simp only [WorkLog.from_dict, hS, applyLegacy_some]
    have h3 : upsert (applyLegacy (applyLegacy d.teams "Team A" d.team_a)
        "Team B" d.team_b) "SAP Project" Y ≠ [] := upsert_ne_nil _ _ _
    rw [if_neg h3]
    exact lookupT_upsert_self _ _ _
  · intro h0 hA hB hS
    simp [WorkLog.from_dict, h0, hA, hB, hS, applyLegacy_none]

/-- Concrete document for the C1 witness: `teams` seeds "Team A" with one
task and the legacy `team_a` key holds a different list. -/
def c1doc : WorkLogDoc :=
  { teams := [("Team A", [⟨"a1", "seeded", "t0", false, ""⟩])]
    team_a := some [⟨"a2", "legacy", "t1", true, "n"⟩]
    team_b := none
    sap_project := none
    session_notes := []
    session_start := "s" }

/-- Concrete document for the C1 witness: nothing present, so the defaults
are seeded. -/
def c1docEmpty : WorkLogDoc := ⟨[], none, none, none, [], ""⟩

theorem c1_witness :
    lookupT (WorkLog.from_dict c1doc).teams "Team A"
        = some [⟨"a2", "legacy", "t1", true, "n"⟩]
    ∧ (WorkLog.from_dict c1docEmpty).teams = defaultTeams := by
  constructor
  · exact (c1_migration_precedence c1doc).1 _ rfl (by decide)
  · exact (c1_migration_precedence c1docEmpty).2.2.2 rfl rfl rfl rfl

/-- Claim C2 (amended): save/load round trip. `WorkLog.to_dict` never emits
legacy keys, and loading the saved document restores the log field-for-field
provided the `teams` mapping is non-empty; an empty `teams` mapping is
replaced by the three fixed defaults on load (see `c2_counterexample`). -/
theorem c2_round_trip (w : WorkLog) (h : w.teams ≠ []) :
    WorkLog.from_dict (WorkLog.to_dict w) = w := by
  simp [WorkLog.from_dict, WorkLog.to_dict, applyLegacy_none, if_neg h]

/-- Claim C2 counterexample: the log with no categories serializes to a
document with no legacy keys, yet loading that document yields the three
default categories rather than the original empty mapping. -/
theorem c2_counterexample :
    WorkLog.from_dict (WorkLog.to_dict { teams := [], session_notes := [], session_start := "" })
      ≠ { teams := [], session_notes := [], session_start := "" } := by decide

/-- Concrete log for the C2 witness. -/
def c2log : WorkLog :=
  { teams := [("Team A", [⟨"id1", "t", "c", false, "n"⟩])]
    session_notes := [("k", "v")]
    session_start := "2024-01-01" }

theorem c2_witness : WorkLog.from_dict (WorkLog.to_dict c2log) = c2log :=
  c2_round_trip c2log (by decide)

/-!
`WorkLogTab._convert_urls_to_links`, modelled as a pure transform on the
note text.  The Qt text document is modelled by its textual content: the
already-linkified check `"<a href=" in self.work_log.toHtml()` becomes a
substring test on the current text, and `re.sub` with the pattern
`(https?://[^\s]+|ftp://[^\s]+)` becomes a left-to-right scan that wraps
each maximal non-whitespace run starting with one of the three schemes.
-/

/-- ASCII whitespace, the characters Python's `\s` (and `str.strip`)
recognizes in the ASCII range. -/
def isPySpace (c : Char) : Bool :=
  c = ' ' || c = '\t' || c = '\n' || c = '\r' || c = '\x0b' || c = '\x0c'

/-- Does `s` start with the pattern `p`? -/
def startsWithL : List Char → List Char → Bool
  | [], _ => true
  | _ :: _, [] => false
  | p :: ps, c :: cs => p == c && startsWithL ps cs

/-- Does `s` contain the pattern `pat` as a contiguous substring
(Python's `pat in s`)? -/
def containsSub (pat : List Char) : List Char → Bool
  | [] => startsWithL pat []
  | c :: cs => startsWithL pat (c :: cs) || containsSub pat cs

/-- Length of the regex match at the current position given that a scheme
of length `k` starts here: the greedy `[^\s]+` after `://` must be
non-empty, and the whole match extends to the next whitespace. -/
def urlLen (k : Nat) (s : List Char) : Option Nat :=
  let tail := (s.drop k).takeWhile (fun c => !(isPySpace c))
  if tail.isEmpty then none else some (k + tail.length)

/-- Length of the match of `(https?://[^\s]+|ftp://[^\s]+)` at the current
position, if any. -/
def matchLen (s : List Char) : Option Nat :=
  if startsWithL "https://".toList s then urlLen 8 s
  else if startsWithL "http://".toList s then urlLen 7 s
  else if startsWithL "ftp://".toList s then urlLen 6 s
  else none

/-- The literal link-opening marker the code searches for:
`"<a href=" in self.work_log.toHtml()`. -/
def markerChars : List Char := "<a href=".toList

/-- The replacement text `re.sub` substitutes for each matched URL:
`<a href="URL" style="color: #89dceb; text-decoration: underline;">URL</a>`. -/
def wrapUrl (url : List Char) : List Char :=
  markerChars ++ "\"".toList ++ url
    ++ "\" style=\"color: #89dceb; text-decoration: underline;\">".toList
    ++ url ++ "</a>".toList

/-- The `re.sub` scan: at `skip = 0` the scanner looks for a match at the
current position (wrapping it and resuming after its end), otherwise it is
still inside the previous match and skips. -/
def subAux : List Char → Nat → List Char
  | [], _ => []
  | _ :: cs, Nat.succ k => subAux cs k
  | c :: cs, 0 =>
    match matchLen (c :: cs) with
    | some n => wrapUrl ((c :: cs).take n) ++ subAux cs (n - 1)
    | none => c :: subAux cs 0

/-- `re.sub(url_pattern, replacement, text)`. -/
def urlSub (s : List Char) : List Char := subAux s 0

/-- `_convert_urls_to_links` on the note text: when the rendered form
already contains the link-opening marker the method returns with no change;
otherwise the text becomes the substituted form (when the substitution
changes nothing the widget is not updated, so the text is unchanged either
way). -/
def convert_urls_to_links (s : List Char) : List Char :=
  if containsSub markerChars s then s else urlSub s

theorem startsWithL_append_self (p z : List Char) :
    startsWithL p (p ++ z) = true := by
  induction p with
  | nil => rfl
  | cons c cs ih => simp [startsWithL, ih]

theorem containsSub_of_startsWith (pat l : List Char)
    (h : startsWithL pat l = true) : containsSub pat l = true := by
  cases l with
  | nil => simpa [containsSub] using h
  | cons c cs => simp [containsSub, h]

theorem containsSub_cons (pat : List Char) (c : Char) (cs : List Char)
    (h : containsSub pat cs = true) : containsSub pat (c :: cs) = true := by
  simp [containsSub, h]

theorem containsSub_marker_append (z : List Char) :
    containsSub markerChars (markerChars ++ z) = true :=
  containsSub_of_startsWith _ _ (startsWithL_append_self _ _)

/-- Either the scan leaves the (remaining) text unchanged, or its output
contains the link-opening marker: every change the substitution makes
inserts the marker. -/
theorem subAux_eq_drop_or_marker (s : List Char) :
    ∀ k : Nat, subAux s k = s.drop k
      ∨ containsSub markerChars (subAux s k) = true := by
  induction s with
  | nil => intro k; left; simp [subAux]
  | cons c cs ih =>
    intro k
    cases k with
    | succ k' =>
      rcases ih k' with h | h
      · left; simpa [subAux] using h
      · right; simpa [subAux] using h
    | zero =>
      cases hm : matchLen (c :: cs) with
      | none =>
        rcases ih 0 with h | h
        · left; simp [subAux, hm, h]
        · right
          have h2 := containsSub_cons markerChars c _ h
          simpa [subAux, hm] using h2
      | some n =>
        right
        have he : subAux (c :: cs) 0
            = wrapUrl ((c :: cs).take n) ++ subAux cs (n - 1) := by
          simp [subAux, hm]
        rw [he, wrapUrl, List.append_assoc]
        exact containsSub_marker_append _

/-- Claim C3: the linkify transform is idempotent — applying
`_convert_urls_to_links` to its own output changes nothing, because any
output that differs from the input contains the link-opening marker, which
makes the second application return immediately. -/
theorem c3_linkify_idempotent (t : List Char) :
    convert_urls_to_links (convert_urls_to_links t) = convert_urls_to_links t := by
  cases hc : containsSub markerChars t with
  | true => simp [convert_urls_to_links, hc]
  | false =>
    rcases subAux_eq_drop_or_marker t 0 with he | hm
    · have ht : urlSub t = t := by simpa [urlSub] using he
      simp [convert_urls_to_links, hc, ht]
    · simp [convert_urls_to_links, urlSub, hc, hm]

/-!
`WorkLogTab` as a task registry: the per-tab state these claims concern is
the ordered task list, the current-task cursor, the notes edit buffer
(`work_log`, by its plain-text content) and the task input line.  The
source keeps the cursor as an object reference into the list; in every
reachable state it denotes a list element, rendered here as its index.
Operations that read the wall clock take the reading as an argument (`ts`
for `datetime.now().timestamp()`, `iso` for `datetime.now().isoformat()`).
-/

/-- Python `str.strip()`, restricted to ASCII whitespace. -/
def pyStrip (s : String) : String :=
  String.mk (((s.toList.dropWhile isPySpace).reverse.dropWhile isPySpace).reverse)

/-- The registry slice of a `WorkLogTab`. -/
structure TabState where
  tab_id : String
  tasks : List Task
  current_task : Option Nat
  work_log : String
  task_input : String
deriving DecidableEq

/-- `WorkLogTab.add_task`: strip the input line; silently return when the
result is empty; otherwise append a task with id
`f"{self.tab_id}_{datetime.now().timestamp()}"`, the stripped title,
`created_at` = now, `completed` = False, empty notes, and clear the input. -/
def add_task (s : TabState) (ts iso : String) : TabState :=
  let text := pyStrip s.task_input
  if text = "" then s
  else
    { s with
      tasks := s.tasks ++ [{ id := s.tab_id ++ "_" ++ ts, title := text,
                             created_at := iso, completed := false, notes := "" }]
      task_input := "" }

/-- `WorkLogTab.on_task_selected`: when the clicked row is a valid index,
set the cursor to that task and load its notes into the edit buffer
(`self.work_log.setText(self.current_task.notes)`); nothing else changes. -/
def on_task_selected (s : TabState) (idx : Nat) : TabState :=
  if h : idx < s.tasks.length then
    { s with current_task := some idx
             work_log := (s.tasks.get ⟨idx, h⟩).notes }
  else s

/-- `WorkLogTab.complete_task`: no-op without a current task; otherwise
mark it completed and store the edit buffer into its notes. -/
def complete_task (s : TabState) : TabState :=
  match s.current_task with
  | none => s
  | some i =>
    match s.tasks.get? i with
    | none => s
    | some t =>
      { s with tasks := s.tasks.set i { t with completed := true, notes := s.work_log } }

/-- `WorkLogTab.delete_task`: no-op without a current task (or when it is
no longer in the list); otherwise remove it, clear the cursor and clear the
edit buffer. -/
def delete_task (s : TabState) : TabState :=
  match s.current_task with
  | none => s
  | some i =>
    if i < s.tasks.length then
      { s with tasks := s.tasks.eraseIdx i, current_task := none, work_log := "" }
    else s

/-- `WorkLogTab.update_notes`: store the edit buffer into the current
task's notes (called from `get_data` before persistence). -/
def update_notes (s : TabState) : TabState :=
  match s.current_task with
  | none => s
  | some i =>
    match s.tasks.get? i with
    | none => s
    | some t => { s with tasks := s.tasks.set i { t with notes := s.work_log } }

/-- Registry state for settling C4: task 0 is selected, its stored notes
are "old", and the edit buffer holds the unsaved text "new". -/
def c4state : TabState :=
  { tab_id := "team_a"
    tasks := [⟨"team_a_1", "A", "t1", false, "old"⟩,
              ⟨"team_a_2", "B", "t2", false, "bnotes"⟩]
    current_task := some 0
    work_log := "new"
    task_input := "" }

/-- Claim C4 counterexample: with task 0 selected and the edit buffer
holding "new" while task 0's stored notes are "old", selecting task 1
leaves task 0's notes at "old" — the buffered text is not written back
before the buffer is replaced with task 1's notes, contradicting the claim
that the in-progress edit is flushed first. -/
theorem c4_counterexample :
    c4state.current_task = some 0
    ∧ c4state.work_log = "new"
    ∧ (c4state.tasks.get? 0).map Task.notes = some "old"
    ∧ "new" ≠ "old"
    ∧ ((on_task_selected c4state 1).tasks.get? 0).map Task.notes = some "old"
    ∧ (on_task_selected c4state 1).current_task = some 1
    ∧ (on_task_selected c4state 1).work_log = "bnotes" := by decide

/-- Claim C4 (amended): a selection change never writes the edit buffer
back — `on_task_selected` leaves every stored task unchanged, moves the
cursor to the clicked task and replaces the edit buffer with that task's
notes, so an in-progress edit is silently discarded (buffered text reaches
a task's notes only through `complete_task` or `update_notes`). -/
theorem c4_select_discards_edit (s : TabState) (idx : Nat)
    (h : idx < s.tasks.length) :
    (on_task_selected s idx).tasks = s.tasks
    ∧ (on_task_selected s idx).current_task = some idx
    ∧ (on_task_selected s idx).work_log = (s.tasks.get ⟨idx, h⟩).notes := by
  simp [on_task_selected, h]

theorem c4_witness :
    (on_task_selected c4state 1).tasks = c4state.tasks
    ∧ (on_task_selected c4state 1).current_task = some 1
    ∧ (on_task_selected c4state 1).work_log
        = (c4state.tasks.get ⟨1, by decide⟩).notes :=
  c4_select_discards_edit c4state 1 (by decide)

/-- A timestamp reading shared by two `add_task` calls that land in the
same sub-second tick. -/
def c8ts : String := "1700000000.123456"

/-- Empty registry about to receive two tasks. -/
def c8s0 : TabState :=
  { tab_id := "team_a", tasks := [], current_task := none,
    work_log := "", task_input := "task one" }

/-- Registry after the first add. -/
def c8s1 : TabState := add_task c8s0 c8ts "2024-01-01T09:00:00"

/-- Registry after the second add in the same timestamp tick. -/
def c8s2 : TabState :=
  add_task { c8s1 with task_input := "task two" } c8ts "2024-01-01T09:00:00"

/-- Claim C8 counterexample: ids are built as
`f"{tab_id}_{datetime.now().timestamp()}"`, so two adds in the same
category whose timestamp readings coincide (two adds within the same tick)
produce the same id — the created ids are not pairwise distinct. -/
theorem c8_counterexample :
    c8s2.tasks.map Task.id
      = ["team_a_1700000000.123456", "team_a_1700000000.123456"]
    ∧ ¬ (c8s2.tasks.map Task.id).Nodup := by decide

/-- Claim C8 (amended): the id of a created task is determined by the tab
id and the timestamp reading alone, so within one category two created
tasks have distinct ids provided their timestamp readings are distinct
(within the same tick they collide, see `c8_counterexample`). -/
theorem c8_ids_distinct (s : TabState) (ts1 iso1 ts2 iso2 : String)
    (hts : ts1 ≠ ts2) :
    ∀ t1 t2 : Task,
      (add_task s ts1 iso1).tasks = s.tasks ++ [t1] →
      (add_task s ts2 iso2).tasks = s.tasks ++ [t2] →
      t1.id ≠ t2.id := by
  intro t1 t2 h1 h2 hid
  by_cases hb : pyStrip s.task_input = ""
  · rw [add_task] at h1
    simp only [hb, if_pos] at h1
    have := congrArg List.length h1
    simp at this
  · simp [add_task, hb] at h1 h2
    have e1 : t1.id = s.tab_id ++ "_" ++ ts1 := by rw [← h1]
    have e2 : t2.id = s.tab_id ++ "_" ++ ts2 := by rw [← h2]
    rw [e1, e2] at hid
    have hd := congrArg String.data hid
    simp only [String.data_append] at hd
    have hts' : ts1.data = ts2.data := by simpa [List.append_assoc] using hd
    exact hts (by cases ts1; cases ts2; exact congrArg String.mk hts')

/-- First task of the C8 witness run (timestamp reading "1"). -/
def c8wTask1 : Task := ⟨"team_a_1", "task one", "i1", false, ""⟩

/-- Second task of the C8 witness run (timestamp reading "2"). -/
def c8wTask2 : Task := ⟨"team_a_2", "task one", "i2", false, ""⟩

theorem c8_witness : c8wTask1.id ≠ c8wTask2.id :=
  c8_ids_distinct c8s0 "1" "i1" "2" "i2" (by decide) c8wTask1 c8wTask2
    (by decide) (by decide)

/-- Claim C9: invalid intents are silently ignored with no state change —
adding with a title that strips to empty changes nothing; adding " hi "
appends exactly one task titled "hi"; completing or deleting with no
current task returns the state unchanged.  All four operations are total:
no error is surfaced. -/
theorem c9_invalid_intents (s : TabState) :
    (∀ ts iso, pyStrip s.task_input = "" → add_task s ts iso = s)
    ∧ (∀ ts iso,
        (add_task { s with task_input := " hi " } ts iso).tasks
          = s.tasks ++ [{ id := s.tab_id ++ "_" ++ ts, title := "hi",
                          created_at := iso, completed := false, notes := "" }])
    ∧ (s.current_task = none → complete_task s = s)
    ∧ (s.current_task = none → delete_task s = s) := by
  refine ⟨?_, ?_, ?_, ?_⟩
  · intro ts iso h
    simp [add_task, h]
  · intro ts iso
    have h1 : pyStrip " hi " = "hi" := by decide
    simp [add_task, h1]
  · intro h
    simp [complete_task, h]
  · intro h
    simp [delete_task, h]

/-- Registry for the C9 witness: blank (whitespace-only) input line, no
current task. -/
def c9state : TabState :=
  { tab_id := "team_a", tasks := [⟨"x", "t", "c", false, "n"⟩],
    current_task := none, work_log := "buf", task_input := "   " }

theorem c9_witness :
    add_task c9state "9" "iso" = c9state
    ∧ (add_task { c9state with task_input := " hi " } "9" "iso").tasks
        = c9state.tasks ++ [{ id := c9state.tab_id ++ "_" ++ "9", title := "hi",
                              created_at := "iso", completed := false, notes := "" }]
    ∧ complete_task c9state = c9state
    ∧ delete_task c9state = c9state := by
  refine ⟨?_, ?_, ?_, ?_⟩
  · exact (c9_invalid_intents c9state).1 "9" "iso" (by decide)
  · exact (c9_invalid_intents c9state).2.1 "9" "iso"
  · exact (c9_invalid_intents c9state).2.2.1 rfl
  · exact (c9_invalid_intents c9state).2.2.2 rfl

/-!
Window layout: `WorkdayWidget.setup_window`, `restore_data`,
`on_notes_toggled` and `toggle_presentation_mode`, plus the tab's
`toggle_notes`.  Geometry is in integer pixels.  A `notes_toggled` emission
is recorded as a returned Bool where a claim is about whether the event
fires.
-/

/-- `WINDOW_HEIGHT` constant (550). -/
def WINDOW_HEIGHT : Int := 550

/-- `PRESENTATION_MODE_WIDTH` constant (300). -/
def PRESENTATION_MODE_WIDTH : Int := 300

/-- `PRESENTATION_MODE_HEIGHT` constant (80). -/
def PRESENTATION_MODE_HEIGHT : Int := 80

/-- Window geometry in pixels (`setGeometry` / `geometry()`). -/
structure Geometry where
  x : Int
  y : Int
  w : Int
  h : Int
deriving DecidableEq

/-- `AppConfig` dataclass; `teams` is the list of name/color entries. -/
structure AppConfig where
  teams : List (String × String)
  window_width : Int
  window_height : Int
  window_x : Int
  window_y : Int
  notes_collapsed : Bool
  presentation_mode : Bool
deriving DecidableEq

/-- The layout-relevant state of `WorkdayWidget`, together with the
`notes_visible` flag of the tab the claims concern (the flag also models
the notes container's visibility, which the code keeps equal to it). -/
structure WidgetState where
  presentation_mode : Bool
  notes_visible : Bool
  baseline_height : Int
  geom : Geometry
  normal_geom : Option Geometry
deriving DecidableEq

/-- `WorkdayWidget.setup_window`: the window is always positioned at the
top-right corner of the available screen area
(`x = right - window_width - 10`, `y = top + 10`); the persisted
`window_x` / `window_y` are never read.  The persisted height becomes both
the window height and the baseline. -/
def setup_window (cfg : AppConfig) (screenRight screenTop : Int) : WidgetState :=
  { presentation_mode := false
    notes_visible := true
    baseline_height := cfg.window_height
    geom := { x := screenRight - cfg.window_width - 10
              y := screenTop + 10
              w := cfg.window_width
              h := cfg.window_height }
    normal_geom := none }

/-- `WorkdayWidget.on_notes_toggled`: in presentation mode return without
resizing; otherwise set the height from the baseline — the full baseline
when expanding, `baseline_height - 85` when collapsing. -/
def on_notes_toggled (s : WidgetState) (is_visible : Bool) : WidgetState :=
  if s.presentation_mode then s
  else
    { s with geom := { s.geom with
        h := if is_visible then s.baseline_height else s.baseline_height - 85 } }

/-- Pressing the notes-toggle button: `WorkLogTab.toggle_notes`
unconditionally flips `notes_visible`, updates the panel, and emits
`notes_toggled`, which `WorkdayWidget.on_notes_toggled` receives.  The
returned Bool records that the signal was emitted. -/
def toggle_notes (s : WidgetState) : WidgetState × Bool :=
  let nv := !s.notes_visible
  (on_notes_toggled { s with notes_visible := nv } nv, true)

/-- The startup-collapse part of `WorkdayWidget.restore_data`: when the
persisted config requests collapsed notes, hide the notes directly without
emitting `notes_toggled` and resize to the constant `WINDOW_HEIGHT - 85`.
The returned Bool records whether a `notes_toggled` event was emitted. -/
def restore_data (cfg : AppConfig) (s : WidgetState) : WidgetState × Bool :=
  if cfg.notes_collapsed then
    ({ s with notes_visible := false
              geom := { s.geom with h := WINDOW_HEIGHT - 85 } }, false)
  else (s, false)

/-- `WorkdayWidget.toggle_presentation_mode`: entering saves the current
geometry into `normal_geom` and shrinks to the fixed presentation footprint
at the same position; leaving restores the saved geometry exactly.  The
source reads `self.normal_geom` unconditionally on exit (it is set on every
entry); `getD` totalizes the model for the unreachable exit-before-entry
state. -/
def toggle_presentation_mode (s : WidgetState) : WidgetState :=
  if s.presentation_mode then
    { s with presentation_mode := false, geom := s.normal_geom.getD s.geom }
  else
    { s with presentation_mode := true
             normal_geom := some s.geom
             geom := { x := s.geom.x, y := s.geom.y,
                       w := PRESENTATION_MODE_WIDTH, h := PRESENTATION_MODE_HEIGHT } }

/-- Widget state in presentation mode, for settling C5. -/
def c5state : WidgetState :=
  { presentation_mode := true, notes_visible := true, baseline_height := 550,
    geom := ⟨100, 100, 300, 80⟩, normal_geom := some ⟨40, 20, 520, 550⟩ }

/-- Claim C5 counterexample: in Presentation mode the notes toggle is not a
no-op — the notes-visible flag flips from true to false and the
`notes_toggled` event is emitted; only the resize is skipped. -/
theorem c5_counterexample :
    c5state.presentation_mode = true
    ∧ c5state.notes_visible = true
    ∧ (toggle_notes c5state).1.notes_visible = false
    ∧ (toggle_notes c5state).2 = true := by decide

/-- Claim C5 (amended): while in Presentation mode the notes toggle still
flips the notes-visible flag (and the panel's visibility) and still emits
`notes_toggled`, but the resize handler returns immediately, leaving the
window geometry and the baseline height unchanged. -/
theorem c5_presentation_toggle (s : WidgetState) (h : s.presentation_mode = true) :
    (toggle_notes s).1.geom = s.geom
    ∧ (toggle_notes s).1.baseline_height = s.baseline_height
    ∧ (toggle_notes s).1.presentation_mode = true
    ∧ (toggle_notes s).1.notes_visible = !s.notes_visible
    ∧ (toggle_notes s).2 = true := by
  simp [toggle_notes, on_notes_toggled, h]

theorem c5_witness :
    (toggle_notes c5state).1.geom = c5state.geom
    ∧ (toggle_notes c5state).1.baseline_height = c5state.baseline_height
    ∧ (toggle_notes c5state).1.presentation_mode = true
    ∧ (toggle_notes c5state).1.notes_visible = !c5state.notes_visible
    ∧ (toggle_notes c5state).2 = true :=
  c5_presentation_toggle c5state rfl

/-- Persisted config requesting collapsed notes with a baseline height of
700, for settling C6. -/
def c6cfg : AppConfig :=
  { teams := [("Team A", "#74c7ec")], window_width := 520, window_height := 700,
    window_x := 100, window_y := 100, notes_collapsed := true,
    presentation_mode := false }

/-- Claim C6 counterexample: entering Collapsed at startup resizes to the
constant `WINDOW_HEIGHT - 85 = 465`, not to the persisted baseline minus
the allowance (`700 - 85 = 615`) — the startup delta is not applied to the
persisted baseline height. -/
theorem c6_counterexample :
    c6cfg.notes_collapsed = true
    ∧ (setup_window c6cfg 1920 0).baseline_height = 700
    ∧ (restore_data c6cfg (setup_window c6cfg 1920 0)).1.geom.h = 465
    ∧ c6cfg.window_height - 85 = 615
    ∧ (465 : Int) ≠ 615 := by decide

/-- Claim C6 (amended): on an interactive toggle the Collapsed target
height always equals `baseline_height - 85`, so starting Expanded with
height H equal to the baseline, one toggle yields H - 85 and a second
restores exactly H.  At startup with `notes_collapsed` persisted, however,
the height is set to the constant `WINDOW_HEIGHT - 85 = 465` regardless of
the persisted baseline height, and no toggle event is emitted. -/
theorem c6_collapsed_height (s : WidgetState) (H : Int)
    (hp : s.presentation_mode = false) (hv : s.notes_visible = true)
    (hb : s.baseline_height = H) (_hh : s.geom.h = H) :
    (∀ s' : WidgetState, s'.presentation_mode = false →
      (on_notes_toggled s' false).geom.h = s'.baseline_height - 85)
    ∧ (toggle_notes s).1.geom.h = H - 85
    ∧ (toggle_notes (toggle_notes s).1).1.geom.h = H
    ∧ (∀ cfg : AppConfig, ∀ sr st : Int, cfg.notes_collapsed = true →
        (restore_data cfg (setup_window cfg sr st)).1.geom.h = WINDOW_HEIGHT - 85
        ∧ (restore_data cfg (setup_window cfg sr st)).1.notes_visible = false
        ∧ (restore_data cfg (setup_window cfg sr st)).2 = false) := by
  refine ⟨?_, ?_, ?_, ?_⟩
  · intro s' h
    simp [on_notes_toggled, h]
  · simp [toggle_notes, on_notes_toggled, hp, hv, hb]
  · simp [toggle_notes, on_notes_toggled, hp, hv, hb]
  · intro cfg sr st h
    simp [restore_data, setup_window, h]

/-- Expanded widget state with height and baseline both 550, for the C6
witness. -/
def c6state : WidgetState :=
  { presentation_mode := false, notes_visible := true, baseline_height := 550,
    geom := ⟨40, 20, 520, 550⟩, normal_geom := none }

theorem c6_witness :
    (toggle_notes c6state).1.geom.h = 550 - 85
    ∧ (toggle_notes (toggle_notes c6state).1).1.geom.h = 550
    ∧ (restore_data c6cfg (setup_window c6cfg 1920 0)).1.geom.h = WINDOW_HEIGHT - 85
    ∧ (restore_data c6cfg (setup_window c6cfg 1920 0)).1.notes_visible = false
    ∧ (restore_data c6cfg (setup_window c6cfg 1920 0)).2 = false := by
  have h := c6_collapsed_height c6state 550 rfl rfl rfl rfl
  have h4 := h.2.2.2 c6cfg 1920 0 rfl
  exact ⟨h.2.1, h.2.2.1, h4.1, h4.2.1, h4.2.2⟩

/-- Claim C7: entering Presentation captures the current bounds into
`normal_geom` and exiting restores exactly those bounds; the state is fully
restored except for the retained snapshot, so in particular the
notes-visible flag — which is what distinguishes Expanded from Collapsed —
equals the one active immediately before entry. -/
theorem c7_presentation_round_trip (s : WidgetState)
    (h : s.presentation_mode = false) :
    (toggle_presentation_mode s).normal_geom = some s.geom
    ∧ (toggle_presentation_mode s).presentation_mode = true
    ∧ toggle_presentation_mode (toggle_presentation_mode s)
        = { s with normal_geom := some s.geom }
    ∧ (toggle_presentation_mode (toggle_presentation_mode s)).geom = s.geom
    ∧ (toggle_presentation_mode (toggle_presentation_mode s)).notes_visible
        = s.notes_visible
    ∧ (toggle_presentation_mode (toggle_presentation_mode s)).presentation_mode
        = false := by
  simp [toggle_presentation_mode, h]

/-- Collapsed-mode widget state for the C7 witness. -/
def c7state : WidgetState :=
  { presentation_mode := false, notes_visible := false, baseline_height := 550,
    geom := ⟨640, 10, 520, 465⟩, normal_geom := none }

theorem c7_witness :
    (toggle_presentation_mode c7state).normal_geom = some c7state.geom
    ∧ (toggle_presentation_mode c7state).presentation_mode = true
    ∧ toggle_presentation_mode (toggle_presentation_mode c7state)
        = { c7state with normal_geom := some c7state.geom }
    ∧ (toggle_presentation_mode (toggle_presentation_mode c7state)).geom
        = c7state.geom
    ∧ (toggle_presentation_mode (toggle_presentation_mode c7state)).notes_visible
        = c7state.notes_visible
    ∧ (toggle_presentation_mode (toggle_presentation_mode c7state)).presentation_mode
        = false :=
  c7_presentation_round_trip c7state rfl

/-- Claim C10: the startup window geometry does not depend on the persisted
`window_x` / `window_y` — two configs that agree on every other field
produce the same startup state, always placed at the top-right corner of
the screen. -/
theorem c10_startup_position (c1 c2 : AppConfig) (sr st : Int)
    (_ht : c1.teams = c2.teams)
    (hw : c1.window_width = c2.window_width)
    (hh : c1.window_height = c2.window_height)
    (_hn : c1.notes_collapsed = c2.notes_collapsed)
    (_hpm : c1.presentation_mode = c2.presentation_mode) :
    setup_window c1 sr st = setup_window c2 sr st
    ∧ (setup_window c1 sr st).geom.x = sr - c1.window_width - 10
    ∧ (setup_window c1 sr st).geom.y = st + 10
    ∧ (setup_window c1 sr st).geom.w = c1.window_width
    ∧ (setup_window c1 sr st).geom.h = c1.window_height := by
  simp [setup_window, hw, hh]

/-- Config persisted at position (100, 100), for the C10 witness. -/
def c10cfgA : AppConfig :=
  { teams := [("Team A", "#74c7ec")], window_width := 520, window_height := 550,
    window_x := 100, window_y := 100, notes_collapsed := false,
    presentation_mode := false }

/-- The same config persisted at position (-3000, 9999). -/
def c10cfgB : AppConfig :=
  { teams := [("Team A", "#74c7ec")], window_width := 520, window_height := 550,
    window_x := -3000, window_y := 9999, notes_collapsed := false,
    presentation_mode := false }

theorem c10_witness :
    setup_window c10cfgA 1920 0 = setup_window c10cfgB 1920 0
    ∧ (setup_window c10cfgA 1920 0).geom.x = 1920 - c10cfgA.window_width - 10
    ∧ (setup_window c10cfgA 1920 0).geom.y = 0 + 10
    ∧ (setup_window c10cfgA 1920 0).geom.w = c10cfgA.window_width
    ∧ (setup_window c10cfgA 1920 0).geom.h = c10cfgA.window_height :=
  c10_startup_position c10cfgA c10cfgB 1920 0 rfl rfl rfl rfl rfl

end Workday
